import Mathlib

/-!
Shallow embedding of `app/dashboard.py` (the indicator ingestion pipeline):
the retrying FRED fetcher `fetch_fred_series`, the threshold classifier
`get_signal_for_value`, the snapshot builder inside `run_dashboard`, and the
temp-file write/rename sequence at the end of `run_dashboard`.

Modelling conventions:
- Python floats are modelled as exact rationals (ℚ); the configured
  thresholds and fetched observation values in this program are small
  decimal literals, for which ℚ ordering agrees with IEEE ordering.
- The network is modelled as a function `Nat → AttemptOutcome` giving the
  outcome the `requests.get` call would produce on each 0-based attempt.
- `time.sleep(d)` is modelled by recording `d` in the `sleeps` trace of the
  fetch result; each executed HTTP attempt is counted in `attempts`.
- The filesystem around the snapshot write is modelled as the contents of
  the destination path and of the sibling temporary path, with the write
  step as a list of primitive operations applied in program order.
-/

attribute [local semireducible] Rat.add Rat.mul Rat.sub Rat.inv

/-- The four signal levels produced by `get_signal_for_value`. -/
inductive Signal
  | green
  | yellow
  | red
  | unknown
deriving DecidableEq, Repr

/-- Per-indicator thresholds dictionary: each key may be missing
(`thresholds.get(key, float("inf"))` in the source). -/
structure Thresholds where
  green_max : Option ℚ
  yellow_max : Option ℚ
deriving DecidableEq, Repr

/-- Models `v <= thresholds.get(key, float("inf"))`: a missing key compares
as positive infinity, so the comparison is true. -/
def leInf (v : ℚ) : Option ℚ → Bool
  | none => true
  | some m => decide (v ≤ m)

/-- `get_signal_for_value` from `dashboard.py` lines 143–151. -/
def get_signal_for_value (value : Option ℚ) (thresholds : Thresholds) : Signal :=
  match value with
  | none => .unknown
  | some v =>
    if leInf v thresholds.green_max then .green
    else if leInf v thresholds.yellow_max then .yellow
    else .red

/-- One record of the `observations` list in a parsed FRED response body.
`value`/`date` are `latest.get("value")` / `latest.get("date", ...)`:
either key may be missing. -/
structure Observation where
  value : Option String
  date : Option String
deriving DecidableEq, Repr

/-- The body of an HTTP response: either `resp.json()` raises (malformed
JSON, carrying the exception text) or it yields a document whose
`observations` list is extracted (`data.get("observations", [])`). -/
inductive RespBody
  | malformed (msg : String)
  | json (observations : List Observation)
deriving DecidableEq, Repr

/-- Outcome of one `requests.get` attempt: an HTTP response with a status
code and body, a timeout, a connection error, or another
`requests.exceptions.RequestException` (carrying `str(e)`). -/
inductive AttemptOutcome
  | status (code : Nat) (body : RespBody)
  | timeout
  | connError
  | reqExc (msg : String)
deriving DecidableEq, Repr

/-- The observable result of `fetch_fred_series`: the returned triple
`(value, date, error)` plus the trace of HTTP attempts performed and the
`time.sleep` durations (in seconds, in order). -/
structure FetchOut where
  value : Option ℚ
  date : Option String
  error : Option String
  attempts : Nat
  sleeps : List Nat
deriving DecidableEq, Repr

/-- Splits the longest leading run of decimal digits off a character list. -/
def takeDigits : List Char → List Char × List Char
  | [] => ([], [])
  | c :: cs =>
    if c.isDigit then
      let p := takeDigits cs
      (c :: p.1, p.2)
    else ([], c :: cs)

/-- Decimal value of a digit list (most significant first). -/
def digitsVal (ds : List Char) : Nat :=
  ds.foldl (fun a c => 10 * a + (c.toNat - 48)) 0

/-- Exponent suffix of a Python float literal: optional sign then digits,
with nothing left over. -/
def pyFloatExp (sgn base : ℚ) (r : List Char) : Option ℚ :=
  let se : ℤ × List Char :=
    match r with
    | '-' :: r2 => (-1, r2)
    | '+' :: r2 => (1, r2)
    | r2 => (1, r2)
  let p := takeDigits se.2
  if p.1.isEmpty || !p.2.isEmpty then none
  else some (sgn * base * (10 : ℚ) ^ (se.1 * (digitsVal p.1 : ℤ)))

/-- Strips leading and trailing whitespace from a character list (the
whitespace tolerance of Python `float`). -/
def pyStrip (cs : List Char) : List Char :=
  ((cs.dropWhile Char.isWhitespace).reverse.dropWhile Char.isWhitespace).reverse

/-- Models Python `float(s)` on (signed) decimal and scientific literals
with optional surrounding whitespace: `[+-]? digits [. digits]?
([eE] [+-]? digits)?` with at least one mantissa digit. Strings outside
this grammar (the `inf`/`nan` words and underscore separators are not used
by this program) yield `none`, i.e. `ValueError`. -/
def pyFloat (s : String) : Option ℚ :=
  let cs0 := pyStrip s.toList
  let sc : ℚ × List Char :=
    match cs0 with
    | '-' :: r => (-1, r)
    | '+' :: r => (1, r)
    | r => (1, r)
  let p1 := takeDigits sc.2
  let p2 : List Char × List Char :=
    match p1.2 with
    | '.' :: r => takeDigits r
    | r => ([], r)
  if p1.1.isEmpty && p2.1.isEmpty then none
  else
    let base : ℚ := (digitsVal p1.1 : ℚ) + (digitsVal p2.1 : ℚ) / (10 : ℚ) ^ p2.1.length
    match p2.2 with
    | [] => some (sc.1 * base)
    | 'e' :: r => pyFloatExp sc.1 base r
    | 'E' :: r => pyFloatExp sc.1 base r
    | _ => none

/-- The retry loop of `fetch_fred_series` (lines 78–141), one recursive call
per `for attempt in range(max_retries)` iteration. `fuel` is the number of
loop iterations still available (`max_retries - attempt`); exhausting it
reaches the trailing `return None, None, "Max retries exceeded"`. -/
def fetchAux (outcomes : Nat → AttemptOutcome) (max_retries : Nat) : Nat → Nat → FetchOut
  | _, 0 => ⟨none, none, some "Max retries exceeded", 0, []⟩
  | attempt, fuel + 1 =>
    match outcomes attempt with
    | .status code body =>
      if code = 400 then
        ⟨none, none, some "FRED API: Invalid request (check series_id)", 1, []⟩
      else if code = 401 then
        ⟨none, none, some "FRED API: Invalid API key (set FRED_API_KEY)", 1, []⟩
      else if code = 429 then
        if attempt < max_retries - 1 then
          let r := fetchAux outcomes max_retries (attempt + 1) fuel
          ⟨r.value, r.date, r.error, r.attempts + 1, 2 ^ (attempt + 2) :: r.sleeps⟩
        else
          ⟨none, none, some s!"FRED API: Rate limited (attempt {attempt + 1}/{max_retries})", 1, []⟩
      else if 400 ≤ code then
        if 500 ≤ code ∧ code < 600 ∧ attempt < max_retries - 1 then
          let r := fetchAux outcomes max_retries (attempt + 1) fuel
          ⟨r.value, r.date, r.error, r.attempts + 1, 2 ^ attempt :: r.sleeps⟩
        else
          ⟨none, none, some s!"FRED API: HTTP {code} (attempt {attempt + 1}/{max_retries})", 1, []⟩
      else
        match body with
        | .malformed e =>
          if attempt < max_retries - 1 then
            let r := fetchAux outcomes max_retries (attempt + 1) fuel
            ⟨r.value, r.date, r.error, r.attempts + 1, 1 :: r.sleeps⟩
          else
            ⟨none, none, some s!"Invalid JSON from FRED: {e} (attempt {attempt + 1}/{max_retries})", 1, []⟩
        | .json observations =>
          match observations with
          | [] => ⟨none, none, some "No observations returned from FRED", 1, []⟩
          | latest :: _ =>
            match latest.value with
            | none => ⟨none, none, some "Latest observation is missing/NA", 1, []⟩
            | some value_str =>
              if value_str = "." || value_str = "" then
                ⟨none, none, some "Latest observation is missing/NA", 1, []⟩
              else
                match pyFloat value_str with
                | some v => ⟨some v, some (latest.date.getD ""), none, 1, []⟩
                | none => ⟨none, none, some s!"Could not parse value: {value_str}", 1, []⟩
    | .timeout =>
      if attempt < max_retries - 1 then
        let r := fetchAux outcomes max_retries (attempt + 1) fuel
        ⟨r.value, r.date, r.error, r.attempts + 1, 2 ^ attempt :: r.sleeps⟩
      else
        ⟨none, none, some s!"FRED API timeout (attempt {attempt + 1}/{max_retries})", 1, []⟩
    | .connError =>
      if attempt < max_retries - 1 then
        let r := fetchAux outcomes max_retries (attempt + 1) fuel
        ⟨r.value, r.date, r.error, r.attempts + 1, 2 ^ attempt :: r.sleeps⟩
      else
        ⟨none, none, some s!"FRED API: Connection error (attempt {attempt + 1}/{max_retries})", 1, []⟩
    | .reqExc msg =>
      ⟨none, none, some s!"FRED API error: {msg}", 1, []⟩

/-- `fetch_fred_series` from `dashboard.py` lines 61–141. `api_key` is the
environment lookup result (`None` or a string); `if not api_key` guards
the missing/empty credential. `series_id` and `timeout` only parametrise
the outgoing request and do not influence the modelled control flow. -/
def fetch_fred_series (series_id : String) (api_key : Option String)
    (timeout max_retries : Nat) (outcomes : Nat → AttemptOutcome) : FetchOut :=
  if api_key.getD "" = "" then
    ⟨none, none, some "FRED API key not configured (set FRED_API_KEY env var)", 0, []⟩
  else
    fetchAux outcomes max_retries 0 max_retries

/-- Round-half-to-even on ℚ, the tie-breaking rule of Python `round`. -/
def roundHalfEven (x : ℚ) : ℤ :=
  if x - ⌊x⌋ < 1 / 2 then ⌊x⌋
  else if 1 / 2 < x - ⌊x⌋ then ⌊x⌋ + 1
  else if ⌊x⌋ % 2 = 0 then ⌊x⌋ else ⌊x⌋ + 1

/-- Models Python `round(v, 2)` on the ℚ model of floats. -/
def pyRound2 (v : ℚ) : ℚ :=
  (roundHalfEven (v * 100) : ℚ) / 100

/-- The `unrate` entry of the configuration (`cfg["indicators"]["unrate"]`):
`thresholds` and `notes` may be missing (`unrate_cfg.get("thresholds", {})`,
`unrate_cfg.get("notes", "")`). -/
structure UnrateCfg where
  series_id : String
  label : String
  source : String
  thresholds : Thresholds
  notes : Option String
deriving DecidableEq, Repr

/-- One element of the payload's `indicators` array (lines 192–201). -/
structure IndicatorEntry where
  key : String
  label : String
  source : String
  timestamp : String
  value : Option ℚ
  unit : String
  signal : Signal
  notes : String
deriving DecidableEq, Repr

/-- The payload document assembled in `run_dashboard` (lines 205–214). -/
structure Payload where
  project : String
  mode : String
  timestamp : String
  indicators : List IndicatorEntry
  metaVersion : Nat
  generated_by : String
deriving DecidableEq, Repr

/-- The payload-building part of `run_dashboard` (lines 171–214): fetch the
`unrate` indicator when configured, classify the unrounded value, and
assemble the entry and payload. `now` models the `now_utc()` clock reading
for this run (the generation timestamp, also used as the fallback
per-indicator timestamp when the observation date is absent or empty). -/
def run_dashboard_payload (projectName : String) (unrate_cfg : Option UnrateCfg)
    (fred_api_key : Option String) (outcomes : Nat → AttemptOutcome)
    (mode now : String) : Payload :=
  let indicators : List IndicatorEntry :=
    match unrate_cfg with
    | none => []
    | some ucfg =>
      let r := fetch_fred_series ucfg.series_id fred_api_key 15 2 outcomes
      let signal := get_signal_for_value r.value ucfg.thresholds
      [{ key := "unrate"
         label := ucfg.label
         source := ucfg.source
         timestamp := if r.date.getD "" = "" then now else r.date.getD ""
         value := r.value.map pyRound2
         unit := "%"
         signal := signal
         notes := if (r.error.getD "") = "" then ucfg.notes.getD "" else r.error.getD "" }]
  { project := projectName
    mode := mode
    timestamp := now
    indicators := indicators
    metaVersion := 1
    generated_by := "dashboard.py" }

/-- Contents of the two paths touched by the write step: the destination
`latest_path` and the sibling temporary `latest_path + ".tmp"`.
`none` means the path does not exist. -/
structure FS where
  dest : Option String
  temp : Option String
deriving DecidableEq, Repr

/-- The primitive filesystem operations the write step performs, in program
order: `open(temp_path, "w")` (creates/truncates the temp file),
`json.dump(payload, f, ...)` (fills it), `os.remove(latest_path)` and
`os.rename(temp_path, latest_path)`. -/
inductive FsOp
  | openTemp
  | dumpTemp (content : String)
  | removeDest
  | renameTempToDest
deriving DecidableEq, Repr

/-- Effect of one completed filesystem operation. -/
def applyOp (s : FS) : FsOp → FS
  | .openTemp => { s with temp := some "" }
  | .dumpTemp c => { s with temp := some c }
  | .removeDest => { s with dest := none }
  | .renameTempToDest => { dest := s.temp, temp := none }

/-- The operation sequence of the try-block in `run_dashboard` lines
220–227: write the temp file, then `if os.path.exists(latest_path):
os.remove(latest_path)`, then `os.rename(temp_path, latest_path)`. -/
def writeOps (destExists : Bool) (content : String) : List FsOp :=
  [.openTemp, .dumpTemp content] ++ (if destExists then [.removeDest] else []) ++ [.renameTempToDest]

/-- All filesystem states reachable during a (possibly interrupted) run of
an operation sequence: the state before any operation and after each
completed one. A reader, or an interruption, can observe any of these. -/
def statesFrom (init : FS) : List FsOp → List FS
  | [] => [init]
  | op :: ops => init :: statesFrom (applyOp init op) ops

/-- Folds a full operation sequence over a state. -/
def applyOps (init : FS) (ops : List FsOp) : FS :=
  ops.foldl applyOp init

/-- Partial effect of an operation that raises midway: a failing
`json.dump` leaves the temp file holding whatever bytes were flushed
(`pbytes`); a failing `open`, `remove` or `rename` leaves the state
unchanged. -/
def failEffect (s : FS) (pbytes : String) : FsOp → FS
  | .openTemp => s
  | .dumpTemp _ => { s with temp := some pbytes }
  | .removeDest => s
  | .renameTempToDest => s

/-- The whole guarded write step of `run_dashboard` lines 220–235 with
failure injection: `failAt = some k` makes the k-th operation of the
sequence raise (after the first k completed), triggering the except
handler `if os.path.exists(temp_path): os.remove(temp_path); sys.exit(1)`.
Returns the final filesystem state and the process exit status. -/
def runWrite (init : FS) (content pbytes : String) (failAt : Option Nat) : FS × Nat :=
  let ops := writeOps init.dest.isSome content
  match failAt with
  | none => (applyOps init ops, 0)
  | some k =>
    match ops[k]? with
    | none => (applyOps init ops, 0)
    | some op =>
      let s1 := applyOps init (ops.take k)
      let s2 := failEffect s1 pbytes op
      let s3 := if s2.temp.isSome then { s2 with temp := none } else s2
      (s3, 1)

/-- Sanity requirement on threshold pairs for the classifier
characterization: `green_max ≤ yellow_max` under the source's reading of a
missing key as `float("inf")`. -/
def threshOrdered (th : Thresholds) : Prop :=
  match th.green_max, th.yellow_max with
  | _, none => True
  | none, some _ => False
  | some g, some y => g ≤ y

/-- The retryable failure kinds of the fetch loop, each tagged with the
data the error message carries. -/
inductive RetryKind
  | rateLimited
  | serverError (code : Nat)
  | timedOut
  | connFailed
  | parseFailed (respCode : Nat) (msg : String)
deriving DecidableEq, Repr

/-- The attempt outcome realizing a retryable failure kind. -/
def retryOutcome : RetryKind → AttemptOutcome
  | .rateLimited => .status 429 (.json [])
  | .serverError c => .status c (.json [])
  | .timedOut => .timeout
  | .connFailed => .connError
  | .parseFailed c e => .status c (.malformed e)

/-- Side conditions making a `RetryKind` well-formed: a server error is a
5xx status and a parse failure happens on a success (sub-400) status. -/
def retryKindOk : RetryKind → Prop
  | .serverError c => 500 ≤ c ∧ c < 600
  | .parseFailed c _ => c < 400
  | _ => True

/-- The backoff the source sleeps before retrying after a failure of kind
`k` at 0-based attempt index `i`. -/
def delayFor (k : RetryKind) (i : Nat) : Nat :=
  match k with
  | .rateLimited => 2 ^ (i + 2)
  | .parseFailed _ _ => 1
  | _ => 2 ^ i

/-- The error message the source returns when a failure of kind `k` on
attempt index `i` is the final attempt out of `m`. -/
def retryErrMsg (k : RetryKind) (i m : Nat) : String :=
  match k with
  | .rateLimited => s!"FRED API: Rate limited (attempt {i + 1}/{m})"
  | .serverError c => s!"FRED API: HTTP {c} (attempt {i + 1}/{m})"
  | .timedOut => s!"FRED API timeout (attempt {i + 1}/{m})"
  | .connFailed => s!"FRED API: Connection error (attempt {i + 1}/{m})"
  | .parseFailed _ e => s!"Invalid JSON from FRED: {e} (attempt {i + 1}/{m})"

/-- A server that answers HTTP 503 on every attempt. -/
def always503 : Nat → AttemptOutcome := fun _ => .status 503 (.json [])

/-- A server that answers HTTP 429 on every attempt. -/
def always429 : Nat → AttemptOutcome := fun _ => .status 429 (.json [])

/-- A server whose response parses but contains no observations. -/
def emptyObsOutcomes : Nat → AttemptOutcome := fun _ => .status 200 (.json [])

/-- A concrete `unrate` configuration: thresholds `{green_max: 4.0}` with
`yellow_max` and `notes` absent. -/
def exCfg : UnrateCfg :=
  { series_id := "UNRATE", label := "Unemployment Rate", source := "FRED",
    thresholds := { green_max := some 4, yellow_max := none }, notes := none }

/-- A server answering 200 with one observation of value `"4.004"` dated
`"2024-05-01"` on every attempt. -/
def exOutcomes : Nat → AttemptOutcome :=
  fun _ => .status 200 (.json [{ value := some "4.004", date := some "2024-05-01" }])

/-- Erases the generation timestamp field of a payload, leaving everything
else (including the per-indicator timestamp fields) intact. -/
def stripGenTimestamp (p : Payload) : Payload := { p with timestamp := "" }

/-- A string whose first character is not `M` is not the fall-through
message `"Max retries exceeded"`. -/
theorem ne_max_retries_of_head {a : String} {c : Char} (hc : a.data.head? = some c)
    (hne : c ≠ 'M') : a ≠ "Max retries exceeded" := by
  intro he
  rw [he] at hc
  have h2 : (some 'M' : Option Char) = some c := hc
  exact hne (Option.some.inj h2).symm

/-- C4: with `max_retries = 2` and a server that returns HTTP 503 on every
attempt, `fetch_fred_series` performs exactly 2 HTTP attempts, sleeps
exactly once for `2^0 = 1` second between them, and returns an error
result with no value. -/
theorem fetch_503_two_attempts (series_id apiKey : String) (hk : apiKey ≠ "") (t : Nat) :
    fetch_fred_series series_id (some apiKey) t 2 always503 =
      { value := none, date := none, error := some "FRED API: HTTP 503 (attempt 2/2)",
        attempts := 2, sleeps := [1] } := by
  unfold fetch_fred_series
  rw [if_neg (by simpa using hk)]
  decide

/-- C4 witness: the theorem applied at a concrete key. -/
theorem fetch_503_two_attempts_witness :
    fetch_fred_series "UNRATE" (some "key") 15 2 always503 =
      { value := none, date := none, error := some "FRED API: HTTP 503 (attempt 2/2)",
        attempts := 2, sleeps := [1] } :=
  fetch_503_two_attempts "UNRATE" "key" (by decide) 15

/-- C2 counterexample: at `v = 7` with `green_max = 10`, `yellow_max = 5`
the classifier returns `green` even though `v > yellow_max`, so the
claimed "red iff v > yellow_max" is false as stated for an arbitrary
threshold pair. -/
theorem classify_red_iff_fails :
    (5 : ℚ) < 7 ∧ get_signal_for_value (some 7) ⟨some 10, some 5⟩ ≠ Signal.red := by
  decide

/-- C2 (amended with `green_max ≤ yellow_max`, missing keys read as
`+infinity`): the classifier returns `green` iff `v ≤ green_max`, `yellow`
iff `green_max < v ≤ yellow_max`, `red` iff `v > yellow_max`, `unknown`
exactly when the value is absent; in particular with `yellow_max` absent a
value above `green_max` is `yellow`, never `red`. -/
theorem classify_characterization (v : ℚ) (th : Thresholds) (hord : threshOrdered th) :
    (get_signal_for_value (some v) th = Signal.green ↔ leInf v th.green_max = true) ∧
    (get_signal_for_value (some v) th = Signal.yellow ↔
      (¬ leInf v th.green_max = true ∧ leInf v th.yellow_max = true)) ∧
    (get_signal_for_value (some v) th = Signal.red ↔ ¬ leInf v th.yellow_max = true) ∧
    get_signal_for_value none th = Signal.unknown ∧
    get_signal_for_value (some v) th ≠ Signal.unknown := by
  obtain ⟨g, y⟩ := th
  cases g with
  | none =>
    cases y with
    | none => simp [get_signal_for_value, leInf]
    | some yv => exact absurd hord (by simp [threshOrdered])
  | some gv =>
    cases y with
    | none =>
      by_cases h : v ≤ gv <;> simp [get_signal_for_value, leInf, h]
    | some yv =>
      have hgy : gv ≤ yv := hord
      by_cases h1 : v ≤ gv <;> by_cases h2 : v ≤ yv <;>
        simp [get_signal_for_value, leInf, h1, h2]
      exact absurd (h1.trans hgy) h2

/-- C2 witness: the amended characterization applied at `v = 5`,
thresholds `(4, 6)`. -/
theorem classify_characterization_witness :
    threshOrdered ⟨some 4, some 6⟩ ∧
    (get_signal_for_value (some 5) ⟨some 4, some 6⟩ = Signal.yellow ↔
      (¬ leInf (5 : ℚ) (some 4) = true ∧ leInf (5 : ℚ) (some 6) = true)) :=
  ⟨show (4 : ℚ) ≤ 6 by norm_num,
   (classify_characterization 5 ⟨some 4, some 6⟩ (show (4 : ℚ) ≤ 6 by norm_num)).2.1⟩

/-- C1: the write step of `run_dashboard` is not a single atomic rename.
With destination content `"old"` present, the sequence of filesystem
states during the write of `"new"` contains the state where the
destination path is missing (after `os.remove(latest_path)`, before
`os.rename`): a reader at that moment observes no file at the published
path, and an interruption there has destroyed the prior content. -/
theorem write_step_exposes_missing_dest :
    statesFrom ⟨some "old", none⟩ (writeOps true "new") =
      [⟨some "old", none⟩, ⟨some "old", some ""⟩, ⟨some "old", some "new"⟩,
       ⟨none, some "new"⟩, ⟨some "new", none⟩] ∧
    FS.mk none (some "new") ∈ statesFrom ⟨some "old", none⟩ (writeOps true "new") := by
  decide

/-- The except handler leaves no temporary file behind, whatever the state
at the failure point was. -/
theorem temp_cleared (s : FS) :
    (if s.temp.isSome then { s with temp := none } else s).temp = none := by
  obtain ⟨d, t⟩ := s
  cases t <;> simp

/-- C7: with no failure the write step exits 0; a failure at any operation
of the write sequence leaves no temporary file (the except handler removes
it when it exists) and exits 1. -/
theorem runWrite_cleanup_and_exit (init : FS) (content pbytes : String) :
    (runWrite init content pbytes none).2 = 0 ∧
    ∀ k, k < (writeOps init.dest.isSome content).length →
      (runWrite init content pbytes (some k)).1.temp = none ∧
      (runWrite init content pbytes (some k)).2 = 1 := by
  refine ⟨rfl, ?_⟩
  intro k hk
  have hsome : (writeOps init.dest.isSome content)[k]? =
      some ((writeOps init.dest.isSome content)[k]) := List.getElem?_eq_getElem hk
  simp only [runWrite, hsome]
  exact ⟨temp_cleared _, by trivial⟩

/-- C7 witness: a failure while dumping JSON into the temp file (operation
index 1) with a pre-existing destination leaves no temp file and exits 1;
the failure-free run exits 0. -/
theorem runWrite_cleanup_and_exit_witness :
    (runWrite ⟨some "old", none⟩ "new" "par" none).2 = 0 ∧
    ((runWrite ⟨some "old", none⟩ "new" "par" (some 1)).1.temp = none ∧
     (runWrite ⟨some "old", none⟩ "new" "par" (some 1)).2 = 1) :=
  ⟨(runWrite_cleanup_and_exit ⟨some "old", none⟩ "new" "par").1,
   (runWrite_cleanup_and_exit ⟨some "old", none⟩ "new" "par").2 1 (by decide)⟩

/-- C6: with the credential absent or empty, `fetch_fred_series` returns
the configuration error immediately with 0 HTTP attempts and no sleeps,
and the snapshot payload still contains the indicator entry with null
value, signal `unknown`, and the error text as notes. -/
theorem missing_credential_entry (key : Option String) (hkey : key = none ∨ key = some "")
    (sid : String) (t m : Nat) (outcomes : Nat → AttemptOutcome)
    (proj mode now : String) (ucfg : UnrateCfg) :
    fetch_fred_series sid key t m outcomes =
      { value := none, date := none,
        error := some "FRED API key not configured (set FRED_API_KEY env var)",
        attempts := 0, sleeps := [] } ∧
    (run_dashboard_payload proj (some ucfg) key outcomes mode now).indicators =
      [{ key := "unrate", label := ucfg.label, source := ucfg.source, timestamp := now,
         value := none, unit := "%", signal := Signal.unknown,
         notes := "FRED API key not configured (set FRED_API_KEY env var)" }] := by
  have hk : key.getD "" = "" := by rcases hkey with rfl | rfl <;> rfl
  refine ⟨?_, ?_⟩
  · simp [fetch_fred_series, hk]
  · simp [run_dashboard_payload, fetch_fred_series, hk, get_signal_for_value]

/-- C6 witness: the theorem applied with the credential absent. -/
theorem missing_credential_entry_witness :
    fetch_fred_series "UNRATE" none 15 2 always503 =
      { value := none, date := none,
        error := some "FRED API key not configured (set FRED_API_KEY env var)",
        attempts := 0, sleeps := [] } ∧
    (run_dashboard_payload "P" (some exCfg) none always503 "daily" "T").indicators =
      [{ key := "unrate", label := exCfg.label, source := exCfg.source, timestamp := "T",
         value := none, unit := "%", signal := Signal.unknown,
         notes := "FRED API key not configured (set FRED_API_KEY env var)" }] :=
  missing_credential_entry none (Or.inl rfl) "UNRATE" 15 2 always503 "P" "daily" "T" exCfg

/-- C9: on fetch success the published indicator value is the fetched value
rounded to 2 decimal places, while the published signal is computed from
the unrounded value; concretely, fetched value `4.004` against
`green_max = 4.0` publishes value `4.0` with signal `yellow`, although the
published value itself classifies as `green` — the published pair can be
mutually inconsistent. -/
theorem published_value_rounded_signal_unrounded (proj : String) (ucfg : UnrateCfg)
    (key : Option String) (outcomes : Nat → AttemptOutcome) (mode now : String) (v : ℚ)
    (hv : (fetch_fred_series ucfg.series_id key 15 2 outcomes).value = some v) :
    ((run_dashboard_payload proj (some ucfg) key outcomes mode now).indicators.map
        (fun e => (e.value, e.signal)) =
      [(some (pyRound2 v), get_signal_for_value (some v) ucfg.thresholds)]) ∧
    ((run_dashboard_payload "P" (some exCfg) (some "k") exOutcomes "daily" "T").indicators.map
        (fun e => (e.value, e.signal)) = [(some 4, Signal.yellow)] ∧
      get_signal_for_value (some 4) exCfg.thresholds = Signal.green) := by
  refine ⟨?_, by decide⟩
  simp [run_dashboard_payload, hv]

/-- C9 witness: the theorem applied at the fetched value `4.004` example. -/
theorem published_value_rounded_signal_unrounded_witness :
    (run_dashboard_payload "P" (some exCfg) (some "k") exOutcomes "daily" "T").indicators.map
        (fun e => (e.value, e.signal)) =
      [(some (pyRound2 (4004 / 1000)), get_signal_for_value (some (4004 / 1000)) exCfg.thresholds)] :=
  (published_value_rounded_signal_unrounded "P" exCfg (some "k") exOutcomes "daily" "T"
    (4004 / 1000) (by decide)).1

/-- C8 counterexample: with identical external responses (HTTP 503 on
every attempt) two runs at different generation times produce payloads
that differ outside the generation timestamp field: the per-indicator
timestamp falls back to the generation time, so it changes too. -/
theorem idempotence_fails_on_fetch_error :
    stripGenTimestamp
        (run_dashboard_payload "P" (some exCfg) (some "k") always503 "daily"
          "2024-01-01T00:00:00Z") ≠
      stripGenTimestamp
        (run_dashboard_payload "P" (some exCfg) (some "k") always503 "daily"
          "2024-01-02T00:00:00Z") := by
  decide

/-- C8 (amended): two runs of the pipeline with identical external
responses produce identical snapshot content except for the generation
timestamp field, provided the indicator's fetch yields a nonempty
observation date; when it does not (fetch error or empty date), the
per-indicator timestamp field falls back to the generation time and
changes as well. -/
theorem idempotent_modulo_timestamp (proj : String) (ucfg : UnrateCfg) (key : Option String)
    (outcomes : Nat → AttemptOutcome) (mode t1 t2 : String)
    (hdate : (fetch_fred_series ucfg.series_id key 15 2 outcomes).date.getD "" ≠ "") :
    stripGenTimestamp (run_dashboard_payload proj (some ucfg) key outcomes mode t1) =
      stripGenTimestamp (run_dashboard_payload proj (some ucfg) key outcomes mode t2) := by
  simp [run_dashboard_payload, stripGenTimestamp, hdate]

/-- C8 witness: the amended theorem applied to a server answering a dated
observation, at two distinct generation times. -/
theorem idempotent_modulo_timestamp_witness :
    stripGenTimestamp (run_dashboard_payload "P" (some exCfg) (some "k") exOutcomes "daily" "T1") =
      stripGenTimestamp
        (run_dashboard_payload "P" (some exCfg) (some "k") exOutcomes "daily" "T2") :=
  idempotent_modulo_timestamp "P" exCfg (some "k") exOutcomes "daily" "T1" "T2" (by decide)

/-- C5: when the first attempt yields a successfully parsed response
(status below 400) whose observations list is empty, or whose first
observation has a missing/empty/NA sentinel value, or a value that fails
to parse as a float, `fetch_fred_series` returns the corresponding error
immediately: exactly one HTTP attempt, no sleeps, no retry — regardless of
how many attempts remain in the budget. -/
theorem data_absent_immediate (sid apiKey : String) (hk : apiKey ≠ "") (t m : Nat)
    (hm : 1 ≤ m) (outcomes : Nat → AttemptOutcome) (code : Nat) (hcode : code < 400)
    (obs : List Observation) (hobs : outcomes 0 = .status code (.json obs)) :
    (obs = [] → fetch_fred_series sid (some apiKey) t m outcomes =
      ⟨none, none, some "No observations returned from FRED", 1, []⟩) ∧
    (∀ latest rest, obs = latest :: rest →
      ((latest.value = none ∨ latest.value = some "" ∨ latest.value = some "." →
        fetch_fred_series sid (some apiKey) t m outcomes =
          ⟨none, none, some "Latest observation is missing/NA", 1, []⟩) ∧
       (∀ s, latest.value = some s → ¬(s = "." ∨ s = "") → pyFloat s = none →
        fetch_fred_series sid (some apiKey) t m outcomes =
          ⟨none, none, some s!"Could not parse value: {s}", 1, []⟩))) := by
  obtain ⟨m', rfl⟩ : ∃ m', m = m' + 1 := ⟨m - 1, by omega⟩
  have hfetch : fetch_fred_series sid (some apiKey) t (m' + 1) outcomes =
      fetchAux outcomes (m' + 1) 0 (m' + 1) := by
    unfold fetch_fred_series
    rw [if_neg (by simpa using hk)]
  have h400 : ¬ code = 400 := by omega
  have h401 : ¬ code = 401 := by omega
  have h429 : ¬ code = 429 := by omega
  have hge : ¬ 400 ≤ code := by omega
  refine ⟨?_, ?_⟩
  · rintro rfl
    rw [hfetch]
    simp [fetchAux, hobs, h400, h401, h429, hge]
  · rintro latest rest rfl
    refine ⟨?_, ?_⟩
    · intro hval
      rw [hfetch]
      rcases hval with h | h | h <;>
        simp [fetchAux, hobs, h400, h401, h429, hge, h]
    · intro s hs hs2 hp
      rw [hfetch]
      have hdot : ¬ s = "." := fun h => hs2 (Or.inl h)
      have hemp : ¬ s = "" := fun h => hs2 (Or.inr h)
      simp [fetchAux, hobs, h400, h401, h429, hge, hs, hdot, hemp, hp]

/-- C5 witness: an empty observations list on attempt 0 with a budget of 2
attempts returns the "no observations" error after one attempt and no
sleeps. -/
theorem data_absent_immediate_witness :
    fetch_fred_series "UNRATE" (some "key") 15 2 emptyObsOutcomes =
      ⟨none, none, some "No observations returned from FRED", 1, []⟩ :=
  (data_absent_immediate "UNRATE" "key" (by decide) 15 2 (by decide) emptyObsOutcomes 200
    (by decide) [] rfl).1 rfl

/-- C3: for a retryable failure of kind `k` at 0-based attempt index `i`,
if `i` is not the final attempt the loop sleeps `delayFor k i` seconds
(`2^(i+2)` after a 429, `2^i` after a timeout, connection error or 5xx, a
flat 1 second after a JSON parse failure) and continues with attempt
`i + 1`, adding one to the attempt count; if `i` is the final attempt it
returns immediately — no further sleep — with the last observed error
annotated with the attempt count. -/
theorem backoff_schedule (outcomes : Nat → AttemptOutcome) (m i : Nat) (k : RetryKind)
    (hk : retryKindOk k) (ho : outcomes i = retryOutcome k) :
    (i + 1 < m →
      fetchAux outcomes m i (m - i) =
        { value := (fetchAux outcomes m (i + 1) (m - (i + 1))).value
          date := (fetchAux outcomes m (i + 1) (m - (i + 1))).date
          error := (fetchAux outcomes m (i + 1) (m - (i + 1))).error
          attempts := (fetchAux outcomes m (i + 1) (m - (i + 1))).attempts + 1
          sleeps := delayFor k i :: (fetchAux outcomes m (i + 1) (m - (i + 1))).sleeps }) ∧
    (i + 1 = m →
      fetchAux outcomes m i (m - i) = ⟨none, none, some (retryErrMsg k i m), 1, []⟩) := by
  constructor
  · intro h
    have hrw : m - i = (m - (i + 1)) + 1 := by omega
    have hlt : i < m - 1 := by omega
    rw [hrw]
    cases k with
    | rateLimited =>
      simp [fetchAux, ho, retryOutcome, delayFor, hlt]
    | serverError c =>
      obtain ⟨h5, h6⟩ := hk
      have hne400 : ¬ c = 400 := by omega
      have hne401 : ¬ c = 401 := by omega
      have hne429 : ¬ c = 429 := by omega
      have hge : 400 ≤ c := by omega
      simp [fetchAux, ho, retryOutcome, delayFor, hlt, hne400, hne401, hne429, hge, h5, h6]
    | timedOut =>
      simp [fetchAux, ho, retryOutcome, delayFor, hlt]
    | connFailed =>
      simp [fetchAux, ho, retryOutcome, delayFor, hlt]
    | parseFailed c e =>
      have hcode : c < 400 := hk
      have hne400 : ¬ c = 400 := by omega
      have hne401 : ¬ c = 401 := by omega
      have hne429 : ¬ c = 429 := by omega
      have hge : ¬ 400 ≤ c := by omega
      simp [fetchAux, ho, retryOutcome, delayFor, hlt, hne400, hne401, hne429, hge]
  · intro h
    have hrw : m - i = 1 := by omega
    have hlt : ¬ i < m - 1 := by omega
    rw [hrw]
    cases k with
    | rateLimited =>
      simp [fetchAux, ho, retryOutcome, retryErrMsg, hlt, h]
    | serverError c =>
      obtain ⟨h5, h6⟩ := hk
      have hne400 : ¬ c = 400 := by omega
      have hne401 : ¬ c = 401 := by omega
      have hne429 : ¬ c = 429 := by omega
      have hge : 400 ≤ c := by omega
      simp [fetchAux, ho, retryOutcome, retryErrMsg, hlt, h, hne400, hne401, hne429, hge]
    | timedOut =>
      simp [fetchAux, ho, retryOutcome, retryErrMsg, hlt, h]
    | connFailed =>
      simp [fetchAux, ho, retryOutcome, retryErrMsg, hlt, h]
    | parseFailed c e =>
      have hcode : c < 400 := hk
      have hne400 : ¬ c = 400 := by omega
      have hne401 : ¬ c = 401 := by omega
      have hne429 : ¬ c = 429 := by omega
      have hge : ¬ 400 ≤ c := by omega
      simp [fetchAux, ho, retryOutcome, retryErrMsg, hlt, h, hne400, hne401, hne429, hge]

/-- C3 witness: a rate-limited first attempt out of two sleeps
`2^(0+2) = 4` seconds and recurses; and a rate-limited second (final)
attempt returns the annotated rate-limit error without sleeping. -/
theorem backoff_schedule_witness :
    (fetchAux always429 2 0 (2 - 0) =
      { value := (fetchAux always429 2 1 (2 - 1)).value
        date := (fetchAux always429 2 1 (2 - 1)).date
        error := (fetchAux always429 2 1 (2 - 1)).error
        attempts := (fetchAux always429 2 1 (2 - 1)).attempts + 1
        sleeps := delayFor RetryKind.rateLimited 0 :: (fetchAux always429 2 1 (2 - 1)).sleeps }) ∧
    (fetchAux always429 2 1 (2 - 1) =
      ⟨none, none, some (retryErrMsg RetryKind.rateLimited 1 2), 1, []⟩) :=
  ⟨(backoff_schedule always429 2 0 RetryKind.rateLimited trivial rfl).1 (by decide),
   (backoff_schedule always429 2 1 RetryKind.rateLimited trivial rfl).2 rfl⟩

/-- Invariant of the retry loop: starting anywhere inside the attempt
range, the loop returns either a success triple or an error triple whose
message is not the unreachable fall-through text. -/
theorem fetchAux_exclusive (outcomes : Nat → AttemptOutcome) (m : Nat) :
    ∀ fuel attempt, attempt + fuel = m → 0 < fuel →
      ((∃ v d, (fetchAux outcomes m attempt fuel).value = some v ∧
        (fetchAux outcomes m attempt fuel).date = some d ∧
        (fetchAux outcomes m attempt fuel).error = none) ∨
       ((fetchAux outcomes m attempt fuel).value = none ∧
        (fetchAux outcomes m attempt fuel).date = none ∧
        ∃ e, (fetchAux outcomes m attempt fuel).error = some e ∧
          e ≠ "Max retries exceeded")) := by
  intro fuel
  induction fuel with
  | zero => omega
  | succ n ih =>
    intro attempt hsum hpos
    have hrec : attempt < m - 1 → 0 < n := by omega
    cases houtcome : outcomes attempt with
    | status code body =>
      by_cases h400 : code = 400
      · exact Or.inr (by simp [fetchAux, houtcome, h400])
      by_cases h401 : code = 401
      · exact Or.inr (by simp [fetchAux, houtcome, h400, h401])
      by_cases h429 : code = 429
      · by_cases hfin : attempt < m - 1
        · have := ih (attempt + 1) (by omega) (hrec hfin)
          simp only [fetchAux, houtcome, h400, h401, h429, hfin, if_false, if_true,
            reduceIte] at this ⊢
          exact this
        · exact Or.inr (by simp [fetchAux, houtcome, h400, h401, h429, hfin]
                           exact ne_max_retries_of_head rfl (by decide))
      by_cases hge : 400 ≤ code
      · by_cases hsrv : 500 ≤ code ∧ code < 600 ∧ attempt < m - 1
        · have := ih (attempt + 1) (by omega) (hrec hsrv.2.2)
          simp only [fetchAux, houtcome, h400, h401, h429, hge, hsrv, if_false, if_true,
            reduceIte] at this ⊢
          exact this
        · exact Or.inr (by simp [fetchAux, houtcome, h400, h401, h429, hge, hsrv]
                           exact ne_max_retries_of_head rfl (by decide))
      · cases body with
        | malformed e =>
          by_cases hfin : attempt < m - 1
          · have := ih (attempt + 1) (by omega) (hrec hfin)
            simp only [fetchAux, houtcome, h400, h401, h429, hge, hfin, if_false, if_true,
              reduceIte] at this ⊢
            exact this
          · exact Or.inr (by simp [fetchAux, houtcome, h400, h401, h429, hge, hfin]
                             exact ne_max_retries_of_head rfl (by decide))
        | json observations =>
          cases observations with
          | nil =>
            exact Or.inr (by simp [fetchAux, houtcome, h400, h401, h429, hge])
          | cons latest rest =>
            cases hval : latest.value with
            | none =>
              exact Or.inr (by simp [fetchAux, houtcome, h400, h401, h429, hge, hval])
            | some value_str =>
              by_cases hna : value_str = "." || value_str = ""
              · exact Or.inr (by simp [fetchAux, houtcome, h400, h401, h429, hge, hval, hna])
              · cases hparse : pyFloat value_str with
                | some v =>
                  exact Or.inl ⟨v, latest.date.getD "",
                    by simp [fetchAux, houtcome, h400, h401, h429, hge, hval, hna, hparse]⟩
                | none =>
                  exact Or.inr (by simp [fetchAux, houtcome, h400, h401, h429, hge, hval,
                                     hna, hparse]
                                   exact ne_max_retries_of_head rfl (by decide))
    | timeout =>
      by_cases hfin : attempt < m - 1
      · have := ih (attempt + 1) (by omega) (hrec hfin)
        simp only [fetchAux, houtcome, hfin, if_false, if_true, reduceIte] at this ⊢
        exact this
      · exact Or.inr (by simp [fetchAux, houtcome, hfin]
                         exact ne_max_retries_of_head rfl (by decide))
    | connError =>
      by_cases hfin : attempt < m - 1
      · have := ih (attempt + 1) (by omega) (hrec hfin)
        simp only [fetchAux, houtcome, hfin, if_false, if_true, reduceIte] at this ⊢
        exact this
      · exact Or.inr (by simp [fetchAux, houtcome, hfin]
                         exact ne_max_retries_of_head rfl (by decide))
    | reqExc msg =>
      exact Or.inr (by simp [fetchAux, houtcome]
                       exact ne_max_retries_of_head rfl (by decide))

/-- C10: for any call with `max_retries ≥ 1`, `fetch_fred_series` returns
either `(some value, some date, no error)` or `(none, none, some error)`:
exactly one of value and error is present, the both-absent case never
occurs, and the trailing "Max retries exceeded" fall-through after the
attempt loop is never the returned error. -/
theorem fetch_exclusive (sid : String) (key : Option String) (t m : Nat) (hm : 1 ≤ m)
    (outcomes : Nat → AttemptOutcome) :
    (∃ v d, (fetch_fred_series sid key t m outcomes).value = some v ∧
      (fetch_fred_series sid key t m outcomes).date = some d ∧
      (fetch_fred_series sid key t m outcomes).error = none) ∨
    ((fetch_fred_series sid key t m outcomes).value = none ∧
     (fetch_fred_series sid key t m outcomes).date = none ∧
     ∃ e, (fetch_fred_series sid key t m outcomes).error = some e ∧
       e ≠ "Max retries exceeded") := by
  unfold fetch_fred_series
  split_ifs with h
  · exact Or.inr ⟨rfl, rfl, _, rfl, by decide⟩
  · exact fetchAux_exclusive outcomes m m 0 (by omega) (by omega)

/-- C10 witness: the theorem applied at a 2-attempt run against a server
that always answers 503. -/
theorem fetch_exclusive_witness :
    (∃ v d, (fetch_fred_series "UNRATE" (some "key") 15 2 always503).value = some v ∧
      (fetch_fred_series "UNRATE" (some "key") 15 2 always503).date = some d ∧
      (fetch_fred_series "UNRATE" (some "key") 15 2 always503).error = none) ∨
    ((fetch_fred_series "UNRATE" (some "key") 15 2 always503).value = none ∧
     (fetch_fred_series "UNRATE" (some "key") 15 2 always503).date = none ∧
     ∃ e, (fetch_fred_series "UNRATE" (some "key") 15 2 always503).error = some e ∧
       e ≠ "Max retries exceeded") :=
  fetch_exclusive "UNRATE" (some "key") 15 2 (by decide) always503
